import Mathlib

/-!
Shallow embedding of cep_agent.py (Complex Event Processing Agent).

Modelling choices:
* datetime instants and timedelta durations are integers;
* datetime.now() is an explicit now parameter threaded through each
  ingestion / evaluation pass;
* the user-supplied condition and action callables may raise, so they
  return Except Unit results; Except.error models an uncaught Python
  exception;
* the event payload Dict[str, Any] is an association list of scalars;
* the statistics dicts with d.get(k, 0) + 1 updates are total functions
  with default 0;
* the pattern registry dict (insertion-ordered, replace-by-id in place)
  is an association list with an in-place upsert.
-/

set_option autoImplicit false

namespace CEP

/-- EventType enum from cep_agent.py. -/
inductive EventType where
  | SENSOR_READING
  | ALERT
  | STATUS_CHANGE
  | THRESHOLD_BREACH
  | SYSTEM_EVENT
  deriving DecidableEq, Repr

/-- EventPriority enum from cep_agent.py. -/
inductive EventPriority where
  | LOW
  | MEDIUM
  | HIGH
  | CRITICAL
  deriving DecidableEq, Repr

/-- Event dataclass from cep_agent.py; the payload mapping is modelled as an
association list of scalars. -/
structure Event where
  event_id : String
  event_type : EventType
  timestamp : Int
  source : String
  data : List (String × Int)
  priority : EventPriority := EventPriority.MEDIUM
  processed : Bool := false
  deriving DecidableEq, Repr

/-- Python list slicing lst[-k:]: the whole list when k = 0, otherwise the
last k elements (all of them when k exceeds the length). -/
def pyTail {α : Type} (k : Nat) (l : List α) : List α :=
  if k = 0 then l else l.drop (l.length - k)

/-- Pattern dataclass from cep_agent.py. The condition and action are
user-supplied callables that may raise. -/
structure Pattern where
  pattern_id : String
  name : String
  event_types : List EventType
  time_window : Int
  condition : List Event → Except Unit Bool
  action : List Event → Except Unit Unit
  description : String := ""

/-- Pattern.matches from cep_agent.py: length guard, first-to-last timestamp
span guard, trailing type-sequence comparison (Python slice semantics), then
the user condition on the full event list. Except.error models an uncaught
Python exception (IndexError on an empty list, or a raise inside the user
condition). -/
def Pattern.matches (p : Pattern) (events : List Event) : Except Unit Bool :=
  if events.length < p.event_types.length then Except.ok false
  else
    match events with
    | [] => Except.error ()
    | e :: rest =>
      if ((e :: rest).getLast (List.cons_ne_nil e rest)).timestamp - e.timestamp >
          p.time_window then Except.ok false
      else if pyTail p.event_types.length ((e :: rest).map (fun ev => ev.event_type)) ≠
          p.event_types then Except.ok false
      else p.condition (e :: rest)

/-- Statistics dict from CEPAgent.__init__; the two counter dicts are total
functions with default 0. -/
structure Stats where
  total_events : Nat
  events_by_type : EventType → Nat
  events_by_priority : EventPriority → Nat
  patterns_detected : Nat

/-- Initial statistics: all counters zero. -/
def Stats.init : Stats :=
  { total_events := 0
    events_by_type := fun _ => 0
    events_by_priority := fun _ => 0
    patterns_detected := 0 }

/-- Python dict counter update d[k] = d.get(k, 0) + 1 on a total function. -/
def bumpCount {α : Type} [DecidableEq α] (f : α → Nat) (k : α) : α → Nat :=
  fun x => if x = k then f x + 1 else f x

/-- Detection record dict built in CEPAgent._handle_pattern_match. -/
structure Detection where
  pattern_id : String
  pattern_name : String
  timestamp : Int
  matching_events : List String
  description : String
  deriving DecidableEq, Repr

/-- State of a CEPAgent instance. -/
structure AgentState where
  buffer_size : Nat
  event_buffer : List Event
  patterns : List (String × Pattern)
  detected_patterns : List Detection
  stats : Stats

/-- CEPAgent.__init__(buffer_size): empty bounded buffer, empty registry,
empty detection log, zero statistics. -/
def initAgent (buffer_size : Nat) : AgentState :=
  { buffer_size := buffer_size
    event_buffer := []
    patterns := []
    detected_patterns := []
    stats := Stats.init }

/-- deque(maxlen = cap).append(e): the head is discarded when the capacity
would be exceeded. -/
def pushBounded (cap : Nat) (buf : List Event) (e : Event) : List Event :=
  let b := buf ++ [e]
  if cap < b.length then b.drop (b.length - cap) else b

/-- Python dict assignment self.patterns[pattern.pattern_id] = pattern:
replace in place at an existing key, otherwise append. -/
def upsert : List (String × Pattern) → Pattern → List (String × Pattern)
  | [], p => [(p.pattern_id, p)]
  | (k, q) :: rest, p =>
    if k = p.pattern_id then (k, p) :: rest else (k, q) :: upsert rest p

/-- Registry lookup by pattern id. -/
def findPattern (ps : List (String × Pattern)) (k : String) : Option Pattern :=
  match ps with
  | [] => none
  | (k0, p) :: rest => if k0 = k then some p else findPattern rest k

/-- CEPAgent.register_pattern: stores the pattern in the registry dict; no
validation of the pattern is performed and the call cannot fail. -/
def register_pattern (p : Pattern) (s : AgentState) : AgentState :=
  { s with patterns := upsert s.patterns p }

/-- CEPAgent._get_recent_events: empty-buffer early return, otherwise the
buffered events with timestamp at least cutoff = now - time_window, kept in
buffer order. -/
def get_recent_events (time_window now : Int) (buf : List Event) : List Event :=
  if buf.isEmpty then []
  else buf.filter (fun e => decide (now - time_window ≤ e.timestamp))

/-- Detection record constructed by CEPAgent._handle_pattern_match from the
full matching_events list it receives. -/
def mkDetection (now : Int) (p : Pattern) (matching : List Event) : Detection :=
  { pattern_id := p.pattern_id
    pattern_name := p.name
    timestamp := now
    matching_events := matching.map (fun e => e.event_id)
    description := p.description }

/-- CEPAgent._handle_pattern_match: append the detection record, increment
patterns_detected, then run the action inside try/except — an exception from
the action is caught and only logged, leaving the state already mutated. -/
def handleMatch (now : Int) (p : Pattern) (matching : List Event)
    (s : AgentState) : AgentState :=
  let s1 := { s with
    detected_patterns := s.detected_patterns ++ [mkDetection now p matching]
    stats := { s.stats with patterns_detected := s.stats.patterns_detected + 1 } }
  match p.action matching with
  | Except.ok _ => s1
  | Except.error _ => s1

/-- CEPAgent._check_patterns: iterate the registry in insertion order; the
call to Pattern.matches is not protected by any try/except, so an exception
escaping it (a raise inside the user condition) aborts the loop and
propagates (second component true), keeping the mutations made so far. -/
def checkPatternsGo (now : Int) :
    List (String × Pattern) → AgentState → AgentState × Bool
  | [], s => (s, false)
  | (_, p) :: rest, s =>
    let recent := get_recent_events p.time_window now s.event_buffer
    match p.matches recent with
    | Except.error _ => (s, true)
    | Except.ok true => checkPatternsGo now rest (handleMatch now p recent s)
    | Except.ok false => checkPatternsGo now rest s

/-- Buffer append and statistics update part of CEPAgent.add_event (these
mutations happen before pattern checking and persist even if it raises). -/
def ingest_update (e : Event) (s : AgentState) : AgentState :=
  { s with
    event_buffer := pushBounded s.buffer_size s.event_buffer e
    stats := { s.stats with
      total_events := s.stats.total_events + 1
      events_by_type := bumpCount s.stats.events_by_type e.event_type
      events_by_priority := bumpCount s.stats.events_by_priority e.priority } }

/-- CEPAgent.add_event: append, update statistics, then check all patterns.
The Bool is true when an exception propagated to the caller of add_event. -/
def add_event (now : Int) (e : Event) (s : AgentState) : AgentState × Bool :=
  let s1 := ingest_update e s
  checkPatternsGo now s1.patterns s1

/-- Non-None value passed as the event_type filter of get_events: an actual
EventType member (enum members are always truthy in Python), any other
truthy Python object, or any other falsy Python object (0, an empty string,
False, ...). A foreign object compares unequal to every enum member (Python
== between unrelated objects is False, never an error). -/
inductive TypeArg where
  | known (t : EventType)
  | unknownTruthy (tag : String)
  | unknownFalsy (tag : String)
  deriving DecidableEq, Repr

/-- Non-None value passed as the priority filter of get_events. -/
inductive PriorityArg where
  | known (p : EventPriority)
  | unknownTruthy (tag : String)
  | unknownFalsy (tag : String)
  deriving DecidableEq, Repr

/-- Python truthiness of a non-None event_type filter value, as tested by
the source's `if event_type:` guard. -/
def TypeArg.isTruthy : TypeArg → Bool
  | TypeArg.known _ => true
  | TypeArg.unknownTruthy _ => true
  | TypeArg.unknownFalsy _ => false

/-- Python truthiness of a non-None priority filter value, as tested by the
source's `if priority:` guard. -/
def PriorityArg.isTruthy : PriorityArg → Bool
  | PriorityArg.known _ => true
  | PriorityArg.unknownTruthy _ => true
  | PriorityArg.unknownFalsy _ => false

/-- Python e.event_type == f for the event_type filter argument. -/
def typeArgMatches : TypeArg → EventType → Bool
  | TypeArg.known t, t' => decide (t = t')
  | TypeArg.unknownTruthy _, _ => false
  | TypeArg.unknownFalsy _, _ => false

/-- Python e.priority == f for the priority filter argument. -/
def prioArgMatches : PriorityArg → EventPriority → Bool
  | PriorityArg.known p, p' => decide (p = p')
  | PriorityArg.unknownTruthy _, _ => false
  | PriorityArg.unknownFalsy _, _ => false

/-- CEPAgent.get_events: copy the buffer, apply each filter only when the
argument is truthy (the source guards with `if event_type:` and
`if priority:`, so None and falsy values alike skip the filter), then the
Python slice events[-limit:]. -/
def get_events (event_type : Option TypeArg) (priority : Option PriorityArg)
    (limit : Nat) (s : AgentState) : List Event :=
  let events := s.event_buffer
  let events := match event_type with
    | some f =>
      if f.isTruthy then events.filter (fun e => typeArgMatches f e.event_type)
      else events
    | none => events
  let events := match priority with
    | some f =>
      if f.isTruthy then events.filter (fun e => prioArgMatches f e.priority)
      else events
    | none => events
  pyTail limit events

/-- CEPAgent.get_statistics: a copy of the statistics aggregate. -/
def get_statistics (s : AgentState) : Stats :=
  s.stats

/-- CEPAgent.get_detected_patterns: the Python slice detected[-limit:]. -/
def get_detected_patterns (limit : Nat) (s : AgentState) : List Detection :=
  pyTail limit s.detected_patterns

/-- CEPAgent.clear_buffer: discard all buffered events; nothing else. -/
def clear_buffer (s : AgentState) : AgentState :=
  { s with event_buffer := [] }

/-- One call on the public mutating surface of the agent. -/
inductive Op where
  | reg (p : Pattern)
  | add (now : Int) (e : Event)
  | clear

/-- Execute one public call (for add_event, keep the resulting state whether
or not an exception propagated, as the Python object is mutated in place). -/
def execOp : Op → AgentState → AgentState
  | Op.reg p, s => register_pattern p s
  | Op.add now e, s => (add_event now e s).1
  | Op.clear, s => clear_buffer s

/-- Execute a finite sequence of public calls. -/
def execOps (ops : List Op) (s : AgentState) : AgentState :=
  ops.foldl (fun s o => execOp o s) s

/-- Execute a finite sequence of add_event calls (each with its now). -/
def runAdds (items : List (Int × Event)) (s : AgentState) : AgentState :=
  items.foldl (fun s it => (add_event it.1 it.2 s).1) s

/-- Keep only the trailing cap elements of a list. -/
def dropExcess {α : Type} (cap : Nat) (l : List α) : List α :=
  l.drop (l.length - cap)

/-- Sum of the by-type counters over the whole (closed) EventType enum. -/
def sumByType (f : EventType → Nat) : Nat :=
  f EventType.SENSOR_READING + f EventType.ALERT + f EventType.STATUS_CHANGE +
    f EventType.THRESHOLD_BREACH + f EventType.SYSTEM_EVENT

/-- Sum of the by-priority counters over the whole (closed) enum. -/
def sumByPriority (f : EventPriority → Nat) : Nat :=
  f EventPriority.LOW + f EventPriority.MEDIUM + f EventPriority.HIGH +
    f EventPriority.CRITICAL

/-- The filtering stage of CEPAgent.get_events, before the limit slice. -/
def filteredEvents (event_type : Option TypeArg) (priority : Option PriorityArg)
    (s : AgentState) : List Event :=
  let events := s.event_buffer
  let events := match event_type with
    | some f =>
      if f.isTruthy then events.filter (fun e => typeArgMatches f e.event_type)
      else events
    | none => events
  match priority with
  | some f =>
    if f.isTruthy then events.filter (fun e => prioArgMatches f e.priority)
    else events
  | none => events

/-- Sample sensor-reading event at instant 0. -/
def evA : Event :=
  { event_id := "a", event_type := EventType.SENSOR_READING, timestamp := 0,
    source := "src", data := [] }

/-- Sample alert event at instant 1. -/
def evB : Event :=
  { event_id := "b", event_type := EventType.ALERT, timestamp := 1,
    source := "src", data := [] }

/-- Sample status-change event at instant 2. -/
def evC : Event :=
  { event_id := "c", event_type := EventType.STATUS_CHANGE, timestamp := 2,
    source := "src", data := [], priority := EventPriority.LOW }

/-- Sample threshold-breach event at instant 0. -/
def evTB : Event :=
  { event_id := "tb", event_type := EventType.THRESHOLD_BREACH, timestamp := 0,
    source := "src", data := [], priority := EventPriority.HIGH }

/-- Sample alert event at instant 1 (for the order-sensitivity scenario). -/
def evAL : Event :=
  { event_id := "al", event_type := EventType.ALERT, timestamp := 1,
    source := "src", data := [], priority := EventPriority.HIGH }

/-- Sample system event at instant 5. -/
def evT5 : Event :=
  { event_id := "t5", event_type := EventType.SYSTEM_EVENT, timestamp := 5,
    source := "src", data := [] }

/-- Sample system event at instant 8. -/
def evT8 : Event :=
  { event_id := "t8", event_type := EventType.SYSTEM_EVENT, timestamp := 8,
    source := "src", data := [] }

/-- Pattern with a one-element type sequence whose condition is true exactly
when it is handed two events (observably receiving the full candidate list). -/
def pFull : Pattern :=
  { pattern_id := "p1", name := "P1", event_types := [EventType.ALERT],
    time_window := 100,
    condition := fun evs => Except.ok (decide (evs.length = 2)),
    action := fun _ => Except.ok () }

/-- Pattern whose condition always raises. -/
def pRaise : Pattern :=
  { pattern_id := "bad1", name := "Raise", event_types := [EventType.ALERT],
    time_window := 100,
    condition := fun _ => Except.error (),
    action := fun _ => Except.ok () }

/-- Pattern whose condition always succeeds. -/
def pGood : Pattern :=
  { pattern_id := "good1", name := "Good", event_types := [EventType.ALERT],
    time_window := 100,
    condition := fun _ => Except.ok true,
    action := fun _ => Except.ok () }

/-- Pattern whose condition succeeds but whose action always raises. -/
def pActErr : Pattern :=
  { pattern_id := "ae", name := "ActErr", event_types := [EventType.ALERT],
    time_window := 100,
    condition := fun _ => Except.ok true,
    action := fun _ => Except.error () }

/-- Pattern with an empty type sequence and a non-positive window. -/
def badPattern : Pattern :=
  { pattern_id := "bad", name := "Bad", event_types := [], time_window := -1,
    condition := fun _ => Except.ok true,
    action := fun _ => Except.ok () }

/-- Pattern with a one-element type sequence and a zero window. -/
def pW : Pattern :=
  { pattern_id := "pw", name := "PW", event_types := [EventType.ALERT],
    time_window := 0,
    condition := fun _ => Except.ok true,
    action := fun _ => Except.ok () }

/-- Pattern expecting an Alert followed by a ThresholdBreach. -/
def pSeq : Pattern :=
  { pattern_id := "ps", name := "PS",
    event_types := [EventType.ALERT, EventType.THRESHOLD_BREACH],
    time_window := 100,
    condition := fun _ => Except.ok true,
    action := fun _ => Except.ok () }

/-- Agent state with one buffered event and pFull registered. -/
def sC1 : AgentState :=
  { buffer_size := 10, event_buffer := [evA], patterns := [("p1", pFull)],
    detected_patterns := [], stats := Stats.init }

/-- Agent state with an empty buffer and the raising pattern registered
before a valid one. -/
def sC2 : AgentState :=
  { buffer_size := 10, event_buffer := [],
    patterns := [("bad1", pRaise), ("good1", pGood)],
    detected_patterns := [], stats := Stats.init }

/-- Agent state holding the single alert evB. -/
def sW2 : AgentState :=
  { buffer_size := 10, event_buffer := [evB], patterns := [],
    detected_patterns := [], stats := Stats.init }

/-- Agent state holding the single event evA. -/
def sOne : AgentState :=
  { buffer_size := 10, event_buffer := [evA], patterns := [],
    detected_patterns := [], stats := Stats.init }

/-- Agent state at capacity 2 with buffer [evA, evB]. -/
def sAtCap : AgentState :=
  { buffer_size := 2, event_buffer := [evA, evB], patterns := [],
    detected_patterns := [], stats := Stats.init }

/-! Helper lemmas about the embedded operations. -/

theorem pyTail_nil {α : Type} (k : Nat) : pyTail k ([] : List α) = [] := by
  unfold pyTail
  split <;> simp

theorem pushBounded_eq (cap : Nat) (buf : List Event) (e : Event) :
    pushBounded cap buf e = dropExcess cap (buf ++ [e]) := by
  unfold pushBounded dropExcess
  dsimp only
  by_cases h : cap < (buf ++ [e]).length
  · rw [if_pos h]
  · rw [if_neg h]
    have h0 : (buf ++ [e]).length - cap = 0 := by omega
    rw [h0, List.drop_zero]

theorem dropExcess_length_le {α : Type} (cap : Nat) (l : List α) :
    (dropExcess cap l).length ≤ cap := by
  simp only [dropExcess, List.length_drop]
  omega

theorem dropExcess_of_le {α : Type} (cap : Nat) (l : List α)
    (h : l.length ≤ cap) : dropExcess cap l = l := by
  unfold dropExcess
  have h0 : l.length - cap = 0 := by omega
  simp [h0]

theorem dropExcess_append_left {α : Type} (cap : Nat) (l l2 : List α) :
    dropExcess cap (dropExcess cap l ++ l2) = dropExcess cap (l ++ l2) := by
  rcases le_or_lt l.length cap with h | h
  · rw [dropExcess_of_le cap l h]
  · unfold dropExcess
    have hd : l.length - cap ≤ l.length := by omega
    rw [← List.drop_append_of_le_length hd, List.drop_drop]
    congr 1
    simp only [List.length_append, List.length_drop]
    omega

theorem handleMatch_eq (now : Int) (p : Pattern) (matching : List Event)
    (s : AgentState) :
    handleMatch now p matching s =
      { s with
        detected_patterns := s.detected_patterns ++ [mkDetection now p matching]
        stats := { s.stats with
          patterns_detected := s.stats.patterns_detected + 1 } } := by
  unfold handleMatch
  cases p.action matching <;> rfl

theorem checkPatternsGo_preserves (now : Int) (ps : List (String × Pattern))
    (s : AgentState) :
    (checkPatternsGo now ps s).1.buffer_size = s.buffer_size ∧
    (checkPatternsGo now ps s).1.event_buffer = s.event_buffer ∧
    (checkPatternsGo now ps s).1.patterns = s.patterns ∧
    (checkPatternsGo now ps s).1.stats.total_events = s.stats.total_events ∧
    (checkPatternsGo now ps s).1.stats.events_by_type = s.stats.events_by_type ∧
    (checkPatternsGo now ps s).1.stats.events_by_priority =
      s.stats.events_by_priority := by
  induction ps generalizing s with
  | nil => exact ⟨rfl, rfl, rfl, rfl, rfl, rfl⟩
  | cons hd rest ih =>
    obtain ⟨k, p⟩ := hd
    simp only [checkPatternsGo]
    cases hm : p.matches (get_recent_events p.time_window now s.event_buffer) with
    | error u => exact ⟨rfl, rfl, rfl, rfl, rfl, rfl⟩
    | ok b =>
      cases b with
      | false => exact ih s
      | true =>
        dsimp only
        rw [handleMatch_eq]
        exact ih _

theorem upsert_find (ps : List (String × Pattern)) (p : Pattern) :
    findPattern (upsert ps p) p.pattern_id = some p := by
  induction ps with
  | nil => simp [upsert, findPattern]
  | cons hd rest ih =>
    obtain ⟨k, q⟩ := hd
    by_cases hk : k = p.pattern_id
    · simp [upsert, hk, findPattern]
    · simp [upsert, hk, findPattern, ih]

theorem add_event_fields (now : Int) (e : Event) (s : AgentState) :
    (add_event now e s).1.event_buffer = pushBounded s.buffer_size s.event_buffer e ∧
    (add_event now e s).1.buffer_size = s.buffer_size ∧
    (add_event now e s).1.patterns = s.patterns ∧
    (add_event now e s).1.stats.total_events = s.stats.total_events + 1 ∧
    (add_event now e s).1.stats.events_by_type =
      bumpCount s.stats.events_by_type e.event_type ∧
    (add_event now e s).1.stats.events_by_priority =
      bumpCount s.stats.events_by_priority e.priority := by
  unfold add_event ingest_update
  have h := checkPatternsGo_preserves now
    ({ s with
      event_buffer := pushBounded s.buffer_size s.event_buffer e
      stats := { s.stats with
        total_events := s.stats.total_events + 1
        events_by_type := bumpCount s.stats.events_by_type e.event_type
        events_by_priority :=
          bumpCount s.stats.events_by_priority e.priority } }).patterns
    { s with
      event_buffer := pushBounded s.buffer_size s.event_buffer e
      stats := { s.stats with
        total_events := s.stats.total_events + 1
        events_by_type := bumpCount s.stats.events_by_type e.event_type
        events_by_priority := bumpCount s.stats.events_by_priority e.priority } }
  exact ⟨h.2.1, h.1, h.2.2.1, h.2.2.2.1, h.2.2.2.2.1, h.2.2.2.2.2⟩

theorem runAdds_nil (s : AgentState) : runAdds [] s = s := rfl

theorem runAdds_cons (it : Int × Event) (rest : List (Int × Event))
    (s : AgentState) :
    runAdds (it :: rest) s = runAdds rest ((add_event it.1 it.2 s).1) := rfl

theorem runAdds_state (items : List (Int × Event)) (s : AgentState)
    (h : s.event_buffer.length ≤ s.buffer_size) :
    (runAdds items s).event_buffer =
      dropExcess s.buffer_size (s.event_buffer ++ items.map Prod.snd) ∧
    (runAdds items s).buffer_size = s.buffer_size ∧
    (runAdds items s).stats.total_events =
      s.stats.total_events + items.length := by
  induction items generalizing s with
  | nil =>
    refine ⟨?_, rfl, rfl⟩
    rw [runAdds_nil, List.map_nil, List.append_nil, dropExcess_of_le _ _ h]
  | cons it rest ih =>
    have hf := add_event_fields it.1 it.2 s
    have hlen : ((add_event it.1 it.2 s).1).event_buffer.length ≤
        ((add_event it.1 it.2 s).1).buffer_size := by
      rw [hf.1, hf.2.1, pushBounded_eq]
      exact dropExcess_length_le _ _
    obtain ⟨ih1, ih2, ih3⟩ := ih ((add_event it.1 it.2 s).1) hlen
    rw [runAdds_cons]
    refine ⟨?_, ?_, ?_⟩
    · rw [ih1, hf.1, hf.2.1, pushBounded_eq, dropExcess_append_left]
      simp [List.append_assoc]
    · rw [ih2, hf.2.1]
    · rw [ih3, hf.2.2.2.1]
      simp [List.length_cons]
      omega

theorem sumByType_bump (f : EventType → Nat) (t0 : EventType) :
    sumByType (bumpCount f t0) = sumByType f + 1 := by
  cases t0 <;> simp [sumByType, bumpCount] <;> omega

theorem sumByPriority_bump (f : EventPriority → Nat) (q0 : EventPriority) :
    sumByPriority (bumpCount f q0) = sumByPriority f + 1 := by
  cases q0 <;> simp [sumByPriority, bumpCount] <;> omega

theorem matches_of_short (p : Pattern) (evs : List Event)
    (h : evs.length < p.event_types.length) :
    p.matches evs = Except.ok false := by
  unfold Pattern.matches
  rw [if_pos h]

theorem matches_of_span (p : Pattern) (e0 : Event) (rest : List Event)
    (hspan : ((e0 :: rest).getLast (List.cons_ne_nil e0 rest)).timestamp -
      e0.timestamp > p.time_window) :
    p.matches (e0 :: rest) = Except.ok false := by
  unfold Pattern.matches
  by_cases hlen : (e0 :: rest).length < p.event_types.length
  · rw [if_pos hlen]
  · rw [if_neg hlen]
    dsimp only
    rw [if_pos hspan]

theorem matches_of_mismatch (p : Pattern) (evs : List Event)
    (h : pyTail p.event_types.length (evs.map (fun e => e.event_type)) ≠
      p.event_types) :
    p.matches evs = Except.ok false := by
  unfold Pattern.matches
  by_cases hlen : evs.length < p.event_types.length
  · rw [if_pos hlen]
  · rw [if_neg hlen]
    cases evs with
    | nil =>
      exfalso
      have h0 : ¬ 0 < p.event_types.length := by simpa using hlen
      have hl : p.event_types.length = 0 := by omega
      have hl0 : p.event_types = [] := List.length_eq_zero.mp hl
      rw [hl0] at h
      exact h rfl
    | cons e0 rest =>
      dsimp only
      by_cases hspan : ((e0 :: rest).getLast (List.cons_ne_nil e0 rest)).timestamp -
          e0.timestamp > p.time_window
      · rw [if_pos hspan]
      · rw [if_neg hspan]
        rw [if_pos h]

theorem matches_ok_condition (p : Pattern) (evs : List Event)
    (h : p.matches evs = Except.ok true) : p.condition evs = Except.ok true := by
  unfold Pattern.matches at h
  by_cases hlen : evs.length < p.event_types.length
  · rw [if_pos hlen] at h
    exact absurd h (by simp)
  · rw [if_neg hlen] at h
    cases evs with
    | nil =>
      dsimp only at h
      exact absurd h (by simp)
    | cons e0 rest =>
      dsimp only at h
      by_cases hspan : ((e0 :: rest).getLast (List.cons_ne_nil e0 rest)).timestamp -
          e0.timestamp > p.time_window
      · rw [if_pos hspan] at h
        exact absurd h (by simp)
      · rw [if_neg hspan] at h
        by_cases hmis : pyTail p.event_types.length
            ((e0 :: rest).map (fun ev => ev.event_type)) ≠ p.event_types
        · rw [if_pos hmis] at h
          exact absurd h (by simp)
        · rw [if_neg hmis] at h
          exact h

theorem checkPatternsGo_cons_ok_true (now : Int) (k : String) (p : Pattern)
    (rest : List (String × Pattern)) (s : AgentState)
    (h : p.matches (get_recent_events p.time_window now s.event_buffer) =
      Except.ok true) :
    checkPatternsGo now ((k, p) :: rest) s =
      checkPatternsGo now rest
        (handleMatch now p (get_recent_events p.time_window now s.event_buffer) s) := by
  simp only [checkPatternsGo]
  rw [h]

theorem checkPatternsGo_cons_ok_false (now : Int) (k : String) (p : Pattern)
    (rest : List (String × Pattern)) (s : AgentState)
    (h : p.matches (get_recent_events p.time_window now s.event_buffer) =
      Except.ok false) :
    checkPatternsGo now ((k, p) :: rest) s = checkPatternsGo now rest s := by
  simp only [checkPatternsGo]
  rw [h]

theorem checkPatternsGo_cons_error (now : Int) (k : String) (p : Pattern)
    (rest : List (String × Pattern)) (s : AgentState) (u : Unit)
    (h : p.matches (get_recent_events p.time_window now s.event_buffer) =
      Except.error u) :
    checkPatternsGo now ((k, p) :: rest) s = (s, true) := by
  simp only [checkPatternsGo]
  rw [h]

theorem checkPatternsGo_no_error (now : Int) (ps : List (String × Pattern))
    (s : AgentState)
    (h : ∀ q, q ∈ ps.map Prod.snd →
      ∀ u, q.matches (get_recent_events q.time_window now s.event_buffer) ≠
        Except.error u) :
    (checkPatternsGo now ps s).2 = false := by
  induction ps generalizing s with
  | nil => rfl
  | cons hd rest ih =>
    obtain ⟨k, p⟩ := hd
    cases hm : p.matches (get_recent_events p.time_window now s.event_buffer) with
    | error u => exact absurd hm (h p (by simp) u)
    | ok b =>
      cases b with
      | false =>
        rw [checkPatternsGo_cons_ok_false now k p rest s hm]
        exact ih s (fun q hq u => h q (List.mem_cons_of_mem _ hq) u)
      | true =>
        rw [checkPatternsGo_cons_ok_true now k p rest s hm]
        apply ih
        intro q hq u
        rw [handleMatch_eq]
        exact h q (List.mem_cons_of_mem _ hq) u

theorem get_recent_events_eq_filter (w now : Int) (buf : List Event) :
    get_recent_events w now buf =
      buf.filter (fun e => decide (now - w ≤ e.timestamp)) := by
  cases buf <;> rfl

theorem filter_const_false {α : Type} (l : List α) :
    l.filter (fun _ => false) = [] := by
  induction l with
  | nil => rfl
  | cons a t ih => simp [List.filter_cons, ih]

/-! Claim theorems. -/

/-- C3 counterexample: register_pattern silently accepts badPattern, whose
type sequence is empty and whose window is negative: the pattern is stored in
the registry and no error is signalled (the embedded register_pattern, like
the source function, is total, with no failure path at all). -/
theorem register_accepts_invalid :
    (register_pattern badPattern (initAgent 10)).patterns =
      [("bad", badPattern)] ∧
    badPattern.event_types = [] ∧
    badPattern.time_window ≤ 0 :=
  ⟨rfl, rfl, by decide⟩

/-- C3 amended: register_pattern performs no validation at all: every
pattern, including one with an empty type sequence or a non-positive window,
is stored in the registry under its id (replacing any previous pattern with
that id), the rest of the agent state is untouched, and the call cannot
fail. -/
theorem register_pattern_no_validation (p : Pattern) (s : AgentState) :
    findPattern (register_pattern p s).patterns p.pattern_id = some p ∧
    (register_pattern p s).event_buffer = s.event_buffer ∧
    (register_pattern p s).detected_patterns = s.detected_patterns ∧
    (register_pattern p s).stats = s.stats ∧
    (register_pattern p s).buffer_size = s.buffer_size :=
  ⟨upsert_find s.patterns p, rfl, rfl, rfl, rfl⟩

/-- C5: Pattern.matches returns false whenever the candidate list is shorter
than the type sequence, whenever the first-to-last timestamp span exceeds the
window, and whenever the trailing slice of candidate types (Python slice
semantics) differs from the type sequence; in particular a pattern expecting
[Alert, ThresholdBreach] never matches candidates arriving in the order
[ThresholdBreach, Alert]. -/
theorem matches_rejection (p : Pattern) (evs : List Event) :
    (evs.length < p.event_types.length → p.matches evs = Except.ok false) ∧
    (∀ (e0 : Event) (rest : List Event), evs = e0 :: rest →
      ((e0 :: rest).getLast (List.cons_ne_nil e0 rest)).timestamp -
        e0.timestamp > p.time_window →
      p.matches evs = Except.ok false) ∧
    (pyTail p.event_types.length (evs.map (fun e => e.event_type)) ≠
        p.event_types →
      p.matches evs = Except.ok false) ∧
    (∀ (e1 e2 : Event),
      p.event_types = [EventType.ALERT, EventType.THRESHOLD_BREACH] →
      e1.event_type = EventType.THRESHOLD_BREACH →
      e2.event_type = EventType.ALERT →
      p.matches [e1, e2] = Except.ok false) := by
  refine ⟨matches_of_short p evs, ?_, matches_of_mismatch p evs, ?_⟩
  · intro e0 rest he hs
    subst he
    exact matches_of_span p e0 rest hs
  · intro e1 e2 ht h1 h2
    apply matches_of_mismatch
    rw [ht]
    simp [pyTail, h1, h2]

/-- Witness for C5: concrete rejections of each kind, including the
order-sensitivity scenario with a ThresholdBreach followed by an Alert. -/
theorem matches_rejection_witness :
    pW.matches [] = Except.ok false ∧
    pW.matches [evA, evB] = Except.ok false ∧
    pW.matches [evA] = Except.ok false ∧
    pSeq.matches [evTB, evAL] = Except.ok false :=
  ⟨(matches_rejection pW []).1 (by decide),
   (matches_rejection pW [evA, evB]).2.1 evA [evB] rfl (by decide),
   (matches_rejection pW [evA]).2.2.1 (by decide),
   (matches_rejection pSeq [evTB, evAL]).2.2.2 evTB evAL rfl rfl rfl⟩

/-- C6: _get_recent_events returns, in buffer order, exactly the buffered
events whose timestamp is at least now - window (a sublist of the buffer);
and in the three-event scenario with span(t0, t2) > window and
span(t1, t2) ≤ window, evaluated at now = t2, exactly the events at t1 and
t2 are returned, in insertion order. -/
theorem recent_within_window :
    (∀ (w now : Int) (buf : List Event),
      (∀ e, e ∈ get_recent_events w now buf ↔
        e ∈ buf ∧ now - w ≤ e.timestamp) ∧
      (get_recent_events w now buf).Sublist buf) ∧
    (∀ (w : Int) (e0 e1 e2 : Event),
      e0.timestamp < e1.timestamp → e1.timestamp < e2.timestamp →
      e2.timestamp - e0.timestamp > w → e2.timestamp - e1.timestamp ≤ w →
      get_recent_events w e2.timestamp [e0, e1, e2] = [e1, e2]) := by
  constructor
  · intro w now buf
    constructor
    · intro e
      rw [get_recent_events_eq_filter]
      simp [List.mem_filter]
    · rw [get_recent_events_eq_filter]
      exact List.filter_sublist buf
  · intro w e0 e1 e2 h01 h12 hspan hw
    rw [get_recent_events_eq_filter]
    have d0 : decide (e2.timestamp - w ≤ e0.timestamp) = false := by
      simp only [decide_eq_false_iff_not]
      omega
    have d1 : decide (e2.timestamp - w ≤ e1.timestamp) = true := by
      simp only [decide_eq_true_eq]
      omega
    have d2 : decide (e2.timestamp - w ≤ e2.timestamp) = true := by
      simp only [decide_eq_true_eq]
      omega
    simp only [List.filter_cons, List.filter_nil, d0, d1, d2]
    simp

/-- Witness for C6: window 5 and events at instants 0, 5, 8 with now = 8
keep exactly the last two events. -/
theorem recent_within_window_witness :
    get_recent_events 5 8 [evA, evT5, evT8] = [evT5, evT8] :=
  recent_within_window.2 5 evA evT5 evT8 (by decide) (by decide) (by decide)
    (by decide)

/-- C8 counterexample: with a buffered event, get_events never fails on a
filter value that is not a member of the enums: the source body has no
validation and no raise. A truthy unknown value (for example a string)
compares unequal to every event's type and the call silently returns the
empty list; a falsy unknown value (0, an empty string, False) is skipped by
the `if event_type:` truthiness guard and the call silently returns the
unfiltered slice — the claimed invalid-argument error is signalled in
neither case. -/
theorem unknown_filter_silently_empty :
    (get_events (some (TypeArg.unknownTruthy "bogus")) none 5 sOne = [] ∧
      sOne.event_buffer ≠ []) ∧
    get_events (some (TypeArg.unknownFalsy "")) none 5 sOne = [evA] :=
  ⟨⟨rfl, by decide⟩, rfl⟩

/-- C8 amended: get_events performs no validation of its filter arguments
and cannot fail. A truthy filter value outside the known EventType (or
EventPriority) enum matches no event, so the call silently returns the empty
list for every buffer and every limit; a falsy filter value outside the
enums fails the source's truthiness guard, so that filter is silently
skipped and the call behaves exactly as if no such filter had been passed. -/
theorem get_events_unknown_filter :
    (∀ (tag : String) (pf : Option PriorityArg) (limit : Nat) (s : AgentState),
      get_events (some (TypeArg.unknownTruthy tag)) pf limit s = []) ∧
    (∀ (tag : String) (tf : Option TypeArg) (limit : Nat) (s : AgentState),
      get_events tf (some (PriorityArg.unknownTruthy tag)) limit s = []) ∧
    (∀ (tag : String) (pf : Option PriorityArg) (limit : Nat) (s : AgentState),
      get_events (some (TypeArg.unknownFalsy tag)) pf limit s =
        get_events none pf limit s) ∧
    (∀ (tag : String) (tf : Option TypeArg) (limit : Nat) (s : AgentState),
      get_events tf (some (PriorityArg.unknownFalsy tag)) limit s =
        get_events tf none limit s) := by
  refine ⟨?_, ?_, ?_, ?_⟩
  · intro tag pf limit s
    unfold get_events
    dsimp only
    cases pf <;>
      simp [typeArgMatches, TypeArg.isTruthy, filter_const_false, pyTail_nil,
        List.filter_nil]
  · intro tag tf limit s
    unfold get_events
    dsimp only
    cases tf <;>
      simp [prioArgMatches, PriorityArg.isTruthy, filter_const_false,
        pyTail_nil, List.filter_nil]
  · intro tag pf limit s
    unfold get_events
    dsimp only
    cases pf <;> simp [TypeArg.isTruthy]
  · intro tag tf limit s
    unfold get_events
    dsimp only
    cases tf <;> simp [PriorityArg.isTruthy]

/-- C9: clear_buffer empties the buffer while leaving the statistics
aggregate, the pattern registry and the detection log untouched; afterwards
get_events returns the empty sequence for every filter and every limit. -/
theorem clear_buffer_frame (s : AgentState) :
    (clear_buffer s).event_buffer = [] ∧
    (clear_buffer s).stats = s.stats ∧
    (clear_buffer s).patterns = s.patterns ∧
    (clear_buffer s).detected_patterns = s.detected_patterns ∧
    ∀ (tf : Option TypeArg) (pf : Option PriorityArg) (limit : Nat),
      get_events tf pf limit (clear_buffer s) = [] := by
  refine ⟨rfl, rfl, rfl, rfl, ?_⟩
  intro tf pf limit
  unfold get_events clear_buffer
  cases tf <;> cases pf <;> simp [pyTail_nil, List.filter_nil]

/-- C1 counterexample: pattern pFull has a one-element type sequence. After
the second ingestion the time-filtered candidate list is [evA, evB]; the
appended Detection Record lists both candidate ids ["a", "b"], not the
trailing slice's ["b"]; and since pFull's condition returns true exactly on
two-element lists, the successful match shows that the predicate was
evaluated on the full candidate list, not on the trailing slice. -/
theorem detection_uses_full_candidates :
    ((add_event 1 evB sC1).1.detected_patterns.map
      (fun d => d.matching_events)) = [["a", "b"]] ∧
    (["a", "b"] : List String) ≠ ["b"] :=
  ⟨rfl, by decide⟩

/-- C1 amended: for every evaluation pass and every pattern that passes the
type-sequence check, the predicate is evaluated on the entire time-filtered
candidate list (not only its trailing slice), and on success the Detection
Record's matched_event_ids are the ids of all candidate events and the
action is invoked on that same full candidate list. -/
theorem match_handles_full_candidates (now : Int) (k : String) (p : Pattern)
    (rest : List (String × Pattern)) (evs : List Event) (s : AgentState) :
    (p.matches evs = Except.ok true → p.condition evs = Except.ok true) ∧
    ((handleMatch now p evs s).detected_patterns =
      s.detected_patterns ++ [mkDetection now p evs]) ∧
    ((mkDetection now p evs).matching_events =
      evs.map (fun e => e.event_id)) ∧
    (p.matches (get_recent_events p.time_window now s.event_buffer) =
        Except.ok true →
      checkPatternsGo now ((k, p) :: rest) s =
        checkPatternsGo now rest
          (handleMatch now p
            (get_recent_events p.time_window now s.event_buffer) s)) := by
  refine ⟨matches_ok_condition p evs, ?_, rfl,
    checkPatternsGo_cons_ok_true now k p rest s⟩
  rw [handleMatch_eq]

/-- Witness for the amended C1: concrete successful matches on two-element
candidate lists. -/
theorem match_handles_full_candidates_witness :
    pFull.condition [evA, evB] = Except.ok true ∧
    checkPatternsGo 1 [("good1", pGood)] sW2 =
      checkPatternsGo 1 []
        (handleMatch 1 pGood
          (get_recent_events pGood.time_window 1 sW2.event_buffer) sW2) :=
  ⟨(match_handles_full_candidates 1 "p1" pFull [] [evA, evB] sW2).1 rfl,
   (match_handles_full_candidates 1 "good1" pGood [] [] sW2).2.2.2 rfl⟩

/-- C2 counterexample: with the raising-predicate pattern registered before a
valid one, ingesting an alert makes add_event report the exception to its
caller (true flag) and leaves no detection, although the second pattern
pGood matches the resulting buffer — so the exception aborted the remaining
patterns and propagated out of add_event. -/
theorem predicate_exception_propagates :
    (add_event 1 evB sC2).2 = true ∧
    (add_event 1 evB sC2).1.detected_patterns = [] ∧
    pGood.matches (get_recent_events pGood.time_window 1
      (add_event 1 evB sC2).1.event_buffer) = Except.ok true :=
  ⟨rfl, rfl, rfl⟩

/-- C2 amended: an exception raised by a pattern's action is caught inside
the matching engine — the Detection Record already appended is kept, the
remaining patterns are still evaluated, and nothing propagates to the caller
of add_event — whereas an exception raised by a pattern's predicate
(condition) is not caught: it aborts the evaluation of the remaining
patterns in the pass (keeping the mutations made so far) and propagates to
the caller. -/
theorem action_exception_isolated (now : Int) (k : String) (p : Pattern)
    (rest : List (String × Pattern)) (s : AgentState) :
    (∀ evs, (handleMatch now p evs s).detected_patterns =
      s.detected_patterns ++ [mkDetection now p evs]) ∧
    (p.matches (get_recent_events p.time_window now s.event_buffer) =
        Except.ok true →
      checkPatternsGo now ((k, p) :: rest) s =
        checkPatternsGo now rest
          (handleMatch now p
            (get_recent_events p.time_window now s.event_buffer) s)) ∧
    (∀ u, p.matches (get_recent_events p.time_window now s.event_buffer) =
        Except.error u →
      checkPatternsGo now ((k, p) :: rest) s = (s, true)) ∧
    ((∀ q, q ∈ ((k, p) :: rest).map Prod.snd →
        ∀ u, q.matches (get_recent_events q.time_window now s.event_buffer) ≠
          Except.error u) →
      (checkPatternsGo now ((k, p) :: rest) s).2 = false) := by
  refine ⟨?_, checkPatternsGo_cons_ok_true now k p rest s, ?_,
    checkPatternsGo_no_error now _ s⟩
  · intro evs
    rw [handleMatch_eq]
  · intro u hu
    exact checkPatternsGo_cons_error now k p rest s u hu

/-- Witness for the amended C2: the action-raising pattern pActErr still gets
its record appended and the pass continues and reports no exception; the
predicate-raising pattern pRaise aborts the pass with the propagation flag
set. -/
theorem action_exception_isolated_witness :
    ((handleMatch 1 pActErr [evB] sW2).detected_patterns =
      sW2.detected_patterns ++ [mkDetection 1 pActErr [evB]]) ∧
    (checkPatternsGo 1 [("ae", pActErr)] sW2 =
      checkPatternsGo 1 []
        (handleMatch 1 pActErr
          (get_recent_events pActErr.time_window 1 sW2.event_buffer) sW2)) ∧
    (checkPatternsGo 1 [("bad1", pRaise), ("good1", pGood)] sW2 =
      (sW2, true)) ∧
    ((checkPatternsGo 1 [("good1", pGood)] sW2).2 = false) := by
  refine ⟨(action_exception_isolated 1 "ae" pActErr [] sW2).1 [evB],
    (action_exception_isolated 1 "ae" pActErr [] sW2).2.1 rfl,
    (action_exception_isolated 1 "bad1" pRaise [("good1", pGood)] sW2).2.2.1
      () rfl,
    (action_exception_isolated 1 "good1" pGood [] sW2).2.2.2 ?_⟩
  intro q hq u
  simp only [List.map_cons, List.map_nil, List.mem_singleton] at hq
  subst hq
  intro hc
  exact Except.noConfusion hc

/-- C4: from a freshly constructed agent with capacity N, after any finite
sequence of ingestions the buffer holds exactly the last N ingested events in
insertion order (strict FIFO eviction by insertion order, independent of the
events' timestamp values), its size never exceeds N, and total_events counts
every ingested event, never decreasing on eviction; one ingestion at capacity
evicts exactly the oldest buffered event. -/
theorem buffer_bound_fifo (N : Nat) (items : List (Int × Event)) :
    (runAdds items (initAgent N)).event_buffer =
      dropExcess N (items.map Prod.snd) ∧
    (runAdds items (initAgent N)).event_buffer.length ≤ N ∧
    (runAdds items (initAgent N)).stats.total_events = items.length ∧
    (∀ (now : Int) (e : Event) (s : AgentState),
      s.event_buffer.length = s.buffer_size → 0 < s.buffer_size →
      (add_event now e s).1.event_buffer = s.event_buffer.tail ++ [e]) := by
  have h := runAdds_state items (initAgent N) (by simp [initAgent])
  refine ⟨h.1, ?_, ?_, ?_⟩
  · rw [h.1]
    exact dropExcess_length_le N _
  · have ht := h.2.2
    simpa [initAgent, Stats.init] using ht
  · intro now e s hcap hpos
    have hf := add_event_fields now e s
    rw [hf.1]
    unfold pushBounded
    dsimp only
    have hc : s.buffer_size < (s.event_buffer ++ [e]).length := by
      simp only [List.length_append, List.length_cons, List.length_nil]
      omega
    rw [if_pos hc]
    have h1 : (s.event_buffer ++ [e]).length - s.buffer_size = 1 := by
      simp only [List.length_append, List.length_cons, List.length_nil]
      omega
    rw [h1]
    have h2 : (1 : Nat) ≤ s.event_buffer.length := by omega
    rw [List.drop_append_of_le_length h2, List.drop_one]

/-- Witness for C4: capacity 2, three ingestions; the buffer keeps the last
two events, total_events counts three, and one ingestion at capacity evicts
exactly the oldest buffered event. -/
theorem buffer_bound_fifo_witness :
    (runAdds [(0, evA), (0, evB), (0, evC)] (initAgent 2)).event_buffer =
      [evB, evC] ∧
    (runAdds [(0, evA), (0, evB), (0, evC)] (initAgent 2)).stats.total_events =
      3 ∧
    (add_event 0 evC sAtCap).1.event_buffer = [evB, evC] := by
  have h := buffer_bound_fifo 2 [(0, evA), (0, evB), (0, evC)]
  refine ⟨?_, h.2.2.1, ?_⟩
  · rw [h.1]
    rfl
  · rw [h.2.2.2 0 evC sAtCap rfl (by decide)]
    rfl

/-- C7 counterexample: with one buffered event and limit = 0, get_events
returns the whole (unfiltered) buffer — the Python slice events[-0:] is
events[0:] — not the empty sequence the claim asserts. -/
theorem limit_zero_returns_all :
    get_events none none 0 sOne = [evA] ∧ ([evA] : List Event) ≠ [] :=
  ⟨rfl, by decide⟩

/-- C7 amended: with an absent filter meaning no filtering, for every limit
at least 1 get_events returns the most recent min(limit, count) filtered
events in insertion order (a suffix of the filtered buffer of that length);
for limit = 0 the Python slice events[-0:] yields the entire filtered
sequence, not the empty one. -/
theorem get_events_limit (tf : Option TypeArg) (pf : Option PriorityArg)
    (limit : Nat) (s : AgentState) :
    (1 ≤ limit →
      (get_events tf pf limit s).IsSuffix (filteredEvents tf pf s) ∧
      (get_events tf pf limit s).length =
        min limit (filteredEvents tf pf s).length) ∧
    get_events tf pf 0 s = filteredEvents tf pf s := by
  have heq : ∀ (lim : Nat),
      get_events tf pf lim s = pyTail lim (filteredEvents tf pf s) :=
    fun lim => rfl
  constructor
  · intro hlim
    rw [heq limit]
    unfold pyTail
    rw [if_neg (by omega)]
    constructor
    · exact List.drop_suffix _ _
    · simp only [List.length_drop]
      omega
  · rw [heq 0]
    unfold pyTail
    rw [if_pos rfl]

/-- Witness for the amended C7: limit 1 on a one-event buffer. -/
theorem get_events_limit_witness :
    (get_events none none 1 sOne).IsSuffix (filteredEvents none none sOne) ∧
    (get_events none none 1 sOne).length =
      min 1 (filteredEvents none none sOne).length :=
  (get_events_limit none none 1 sOne).1 (by decide)

theorem execOp_sums (o : Op) (s : AgentState)
    (h1 : s.stats.total_events = sumByType s.stats.events_by_type)
    (h2 : s.stats.total_events = sumByPriority s.stats.events_by_priority) :
    (execOp o s).stats.total_events =
      sumByType (execOp o s).stats.events_by_type ∧
    (execOp o s).stats.total_events =
      sumByPriority (execOp o s).stats.events_by_priority := by
  cases o with
  | reg p => exact ⟨h1, h2⟩
  | clear => exact ⟨h1, h2⟩
  | add now e =>
    have hf := add_event_fields now e s
    constructor
    · show (add_event now e s).1.stats.total_events =
        sumByType (add_event now e s).1.stats.events_by_type
      rw [hf.2.2.2.1, hf.2.2.2.2.1, sumByType_bump, h1]
    · show (add_event now e s).1.stats.total_events =
        sumByPriority (add_event now e s).1.stats.events_by_priority
      rw [hf.2.2.2.1, hf.2.2.2.2.2, sumByPriority_bump, h2]

theorem execOps_sums (ops : List Op) (s : AgentState)
    (h1 : s.stats.total_events = sumByType s.stats.events_by_type)
    (h2 : s.stats.total_events = sumByPriority s.stats.events_by_priority) :
    (execOps ops s).stats.total_events =
      sumByType (execOps ops s).stats.events_by_type ∧
    (execOps ops s).stats.total_events =
      sumByPriority (execOps ops s).stats.events_by_priority := by
  induction ops generalizing s with
  | nil => exact ⟨h1, h2⟩
  | cons o rest ih =>
    have hstep := execOp_sums o s h1 h2
    exact ih (execOp o s) hstep.1 hstep.2

/-- C10: each ingestion increments total_events and exactly one counter in
each of the two statistics maps; registering a pattern and clearing the
buffer leave the statistics untouched; consequently, after every finite
sequence of register_pattern, add_event and clear_buffer calls from a fresh
agent, total_events equals the sum of the by-type counters and equals the sum
of the by-priority counters. -/
theorem stats_counters_consistent :
    (∀ (now : Int) (e : Event) (s : AgentState),
      (add_event now e s).1.stats.total_events = s.stats.total_events + 1 ∧
      (add_event now e s).1.stats.events_by_type e.event_type =
        s.stats.events_by_type e.event_type + 1 ∧
      (∀ t, t ≠ e.event_type →
        (add_event now e s).1.stats.events_by_type t =
          s.stats.events_by_type t) ∧
      (add_event now e s).1.stats.events_by_priority e.priority =
        s.stats.events_by_priority e.priority + 1 ∧
      (∀ q, q ≠ e.priority →
        (add_event now e s).1.stats.events_by_priority q =
          s.stats.events_by_priority q)) ∧
    (∀ (p : Pattern) (s : AgentState), (register_pattern p s).stats = s.stats) ∧
    (∀ s : AgentState, (clear_buffer s).stats = s.stats) ∧
    (∀ (N : Nat) (ops : List Op),
      (execOps ops (initAgent N)).stats.total_events =
        sumByType (execOps ops (initAgent N)).stats.events_by_type ∧
      (execOps ops (initAgent N)).stats.total_events =
        sumByPriority (execOps ops (initAgent N)).stats.events_by_priority) := by
  refine ⟨?_, fun p s => rfl, fun s => rfl, ?_⟩
  · intro now e s
    have hf := add_event_fields now e s
    refine ⟨hf.2.2.2.1, ?_, ?_, ?_, ?_⟩
    · rw [hf.2.2.2.2.1]
      simp [bumpCount]
    · intro t ht
      rw [hf.2.2.2.2.1]
      simp [bumpCount, ht]
    · rw [hf.2.2.2.2.2]
      simp [bumpCount]
    · intro q hq
      rw [hf.2.2.2.2.2]
      simp [bumpCount, hq]
  · intro N ops
    exact execOps_sums ops (initAgent N) rfl rfl

/-- Witness for C10: one concrete ingestion bumps the total and exactly the
matching counters, and a concrete call sequence keeps the sums equal. -/
theorem stats_counters_consistent_witness :
    (add_event 0 evA sOne).1.stats.total_events =
      sOne.stats.total_events + 1 ∧
    (add_event 0 evA sOne).1.stats.events_by_type EventType.SENSOR_READING =
      sOne.stats.events_by_type EventType.SENSOR_READING + 1 ∧
    (add_event 0 evA sOne).1.stats.events_by_type EventType.ALERT =
      sOne.stats.events_by_type EventType.ALERT ∧
    (add_event 0 evA sOne).1.stats.events_by_priority EventPriority.LOW =
      sOne.stats.events_by_priority EventPriority.LOW ∧
    (execOps [Op.add 0 evA, Op.clear] (initAgent 3)).stats.total_events =
      sumByType (execOps [Op.add 0 evA, Op.clear]
        (initAgent 3)).stats.events_by_type := by
  have h := stats_counters_consistent
  have ha := h.1 0 evA sOne
  exact ⟨ha.1, ha.2.1, ha.2.2.1 EventType.ALERT (by decide),
    ha.2.2.2.2 EventPriority.LOW (by decide),
    (h.2.2.2 3 [Op.add 0 evA, Op.clear]).1⟩

end CEP
